import Mathlib

/-!
# Verification of the go-rest TLS bootstrap server

A shallow embedding of the HTTPS demo server (`src/unnamed/part_003`,
package `main`): the two registered handlers, the per-request logger
`logRequestDetails`, the TLS-version naming function `getTLSVersionName`,
the `net/http` mux registration and dispatch semantics the program relies
on, the TLS minimum-version negotiation configured via
`tls.Config{MinVersion: tls.VersionTLS12}`, and the startup sequence of
`main` around `server.ListenAndServeTLS`.

Conventions of the embedding:
* Go `uint16` TLS version codes are `Nat` (the four constants fit well
  inside the range; overflow never arises).
* A request is modelled by the fields the program reads: method, URL path,
  protocol string (`r.Proto`) and the optional negotiated TLS version
  (`r.TLS`, `nil` when the connection is unencrypted).  Request paths are
  taken already in canonical form; the `ServeMux` clean-path redirect for
  non-canonical paths is outside the model, as every claim quantifies over
  exact paths.
* A handler's observable behaviour is an ordered list of effects: log
  lines written to the process log sink and writes to the response body.
* `fmt.Println` with several operands joins them with single spaces;
  `fmt.Sprint`-style concatenation (as in `log.Fatal("msg:", err)`) adds
  no space next to a string operand.  The logger's timestamp prefix and
  the operating-system text of I/O errors are abstracted: a diagnostic
  line is represented by its message.
-/

namespace GoRest

/-- The `crypto/tls` version constant `tls.VersionTLS10 = 0x0301`. -/
def versionTLS10 : Nat := 769

/-- The `crypto/tls` version constant `tls.VersionTLS11 = 0x0302`. -/
def versionTLS11 : Nat := 770

/-- The `crypto/tls` version constant `tls.VersionTLS12 = 0x0303`. -/
def versionTLS12 : Nat := 771

/-- The `crypto/tls` version constant `tls.VersionTLS13 = 0x0304`. -/
def versionTLS13 : Nat := 772

/-- Embedding of `getTLSVersionName` (src/unnamed/part_003, lines 77-90):
a `switch` on the `uint16` version code with a default fallback. -/
def getTLSVersionName (version : Nat) : String :=
  if version = versionTLS10 then "TLS 1.0"
  else if version = versionTLS11 then "TLS 1.1"
  else if version = versionTLS12 then "TLS 1.2"
  else if version = versionTLS13 then "TLS 1.3"
  else "Unknown TLS version!"

/-- The fields of `*http.Request` that the program reads.  `tls = none`
models `r.TLS == nil` (an unencrypted connection); `tls = some v` models
an established TLS connection whose negotiated version code is `v`. -/
structure Request where
  method : String
  path : String
  proto : String
  tls : Option Nat
deriving DecidableEq, Repr

/-- One observable effect of handling a request: a line printed to the
log sink, or bytes written to the HTTP response body. -/
inductive Effect where
  | logLine (s : String)
  | writeBody (s : String)
deriving DecidableEq, Repr

/-- The response body assembled from an effect trace, in order. -/
def responseBody (es : List Effect) : String :=
  es.foldl (fun acc e => match e with
    | Effect.writeBody s => acc ++ s
    | Effect.logLine _ => acc) ""

/-- The log lines of an effect trace, in order. -/
def logLines (es : List Effect) : List String :=
  es.filterMap (fun e => match e with
    | Effect.logLine s => some s
    | Effect.writeBody _ => none)

/-- Embedding of `logRequestDetails` (src/unnamed/part_003, lines 63-73):
prints the HTTP protocol version, then either the negotiated TLS version
name or an explicit no-TLS notice. -/
def logRequestDetails (r : Request) : List String :=
  ("☑️ Received request with HTTP version: " ++ r.proto) ::
  (match r.tls with
   | some v => ["☑️ Received request with TLS version: " ++ getTLSVersionName v]
   | none => ["☑️ Received request without TLS"])

/-- The `/orders` handler registered in `main`: it calls
`logRequestDetails(r)` and then writes the fixed acknowledgment string. -/
def ordersHandler (r : Request) : List Effect :=
  (logRequestDetails r).map Effect.logLine ++
    [Effect.writeBody "Handling incoming orders..✅"]

/-- The `/users` handler registered in `main`: it calls
`logRequestDetails(r)` and then writes the fixed acknowledgment string. -/
def usersHandler (r : Request) : List Effect :=
  (logRequestDetails r).map Effect.logLine ++
    [Effect.writeBody "Handling users..✅"]

/-- A route table: the exact-match patterns registered on the default
`http.ServeMux`, each with its handler function. -/
def Mux : Type := List (String × (Request → List Effect))

/-- Embedding of `(*http.ServeMux).Handle` as reached through
`http.HandleFunc`: registering an already-registered pattern is a
`panic("http: multiple registrations for " ++ pattern)` in `net/http`,
modelled as `Except.error`; an empty pattern panics likewise.  A fresh
registration prepends the entry. -/
def handleFunc (mux : Mux) (pattern : String) (h : Request → List Effect) :
    Except String Mux :=
  if pattern = "" then Except.error "http: invalid pattern"
  else if (List.any mux (fun e => e.1 = pattern)) then
    Except.error ("http: multiple registrations for " ++ pattern)
  else Except.ok ((pattern, h) :: mux)

/-- The route registrations performed by `main` (src/unnamed/part_003,
lines 13-21), in order, on an initially empty default mux. -/
def programMuxE : Except String Mux := do
  let m1 ← handleFunc [] "/orders" ordersHandler
  handleFunc m1 "/users" usersHandler

/-- The route table `main` ends up with. -/
def theMux : Mux :=
  [("/users", usersHandler), ("/orders", ordersHandler)]

/-- The result of the server's dispatch of one request: HTTP status,
the ordered effect trace, and how many registered handlers ran. -/
structure DispatchResult where
  status : Nat
  effects : List Effect
  handlersInvoked : Nat
deriving DecidableEq, Repr

/-- Embedding of `ServeMux` dispatch for exact-match patterns: the
handler registered under the request's exact path runs (Go's implicit
`WriteHeader(200)` on the first body write gives status 200); with no
matching pattern the `NotFoundHandler` answers 404 with the stock body
and no registered handler runs. -/
def serveMuxDispatch (mux : Mux) (r : Request) : DispatchResult :=
  match List.find? (fun e => e.1 = r.path) mux with
  | some e => { status := 200, effects := e.2 r, handlersInvoked := 1 }
  | none => { status := 404,
              effects := [Effect.writeBody "404 page not found\n"],
              handlersInvoked := 0 }

/-- Serving a sequence of requests: handlers keep no state, so the
server's behaviour on a sequence is dispatch applied pointwise. -/
def serveSequence (rs : List Request) : List DispatchResult :=
  rs.map (serveMuxDispatch theMux)

/-- The minimum TLS version the program configures:
`tls.Config{MinVersion: tls.VersionTLS12}` (src/unnamed/part_003,
lines 30-32). -/
def configuredMinVersion : Nat := versionTLS12

/-- The versions a `crypto/tls` server with the given `MinVersion` (and
the default `MaxVersion`, TLS 1.3) is willing to negotiate, in the
library's preference order, highest first. -/
def serverSupportedVersions (minVersion : Nat) : List Nat :=
  [versionTLS13, versionTLS12, versionTLS11, versionTLS10].filter
    (fun v => minVersion ≤ v)

/-- The `crypto/tls` version negotiation: the server picks the first
version in its own preference order that the client also offers; if no
offered version meets the floor, the handshake fails
(`protocol version not supported`), modelled as `none`. -/
def negotiateVersion (minVersion : Nat) (clientVersions : List Nat) :
    Option Nat :=
  List.find? (fun v => clientVersions.contains v)
    (serverSupportedVersions minVersion)

/-- One accepted connection carrying one request: the TLS handshake runs
first under the configured policy; only if it succeeds does the request
reach the mux, with `r.TLS.Version` set to the negotiated version.  A
failed handshake never reaches any handler, modelled as `none`. -/
def processConnection (minVersion : Nat) (clientVersions : List Nat)
    (method path proto : String) : Option DispatchResult :=
  match negotiateVersion minVersion clientVersions with
  | none => none
  | some v => some (serveMuxDispatch theMux
      { method := method, path := path, proto := proto, tls := some v })

/-- How many registered handlers ran on a connection attempt: zero when
the handshake failed. -/
def connectionHandlersInvoked (o : Option DispatchResult) : Nat :=
  match o with
  | none => 0
  | some d => d.handlersInvoked

/-- Startup events of `(*http.Server).ListenAndServeTLS` that the
claims observe. -/
inductive StartupEvent where
  | listenSocketOpened
  | listenSocketClosed
  | serveLoopEntered
deriving DecidableEq, Repr

/-- Embedding of `(*http.Server).ListenAndServeTLS(certFile, keyFile)`
from `net/http`: it first calls `net.Listen("tcp", addr)` and returns the
bind error if that fails; otherwise, with the listener already open (and
`defer ln.Close()` pending), `ServeTLS` loads the certificate/key pair
with `tls.LoadX509KeyPair` and returns the load error if that fails,
closing the listener on the way out; otherwise it enters the accept
loop.  `bindOk` and `certOk` abstract whether the bind and the
certificate load succeed; the result is the ordered event trace and the
error returned, `none` meaning the call blocked in the serve loop. -/
def listenAndServeTLS (bindOk certOk : Bool) :
    List StartupEvent × Option String :=
  if bindOk = false then ([], some "bind error")
  else if certOk = false then
    ([StartupEvent.listenSocketOpened, StartupEvent.listenSocketClosed],
     some "cert load error")
  else ([StartupEvent.listenSocketOpened, StartupEvent.serveLoopEntered],
        none)

/-- The operator-visible outcome of running `main` up to (and including)
a startup failure: the lines printed, the socket events, and the exit
code (`none` while the server is still serving). -/
structure StartupResult where
  lines : List String
  events : List StartupEvent
  exitCode : Option Nat
deriving DecidableEq, Repr

/-- The banner `main` prints:
`fmt.Println("🟢 Server is running on PORT:", PORT)` with `PORT = 3000`,
executed before `server.ListenAndServeTLS` is called. -/
def serverRunningLine : String := "🟢 Server is running on PORT: 3000"

/-- Embedding of the startup sequence of `main` (src/unnamed/part_003,
lines 13-51): register the routes, print the banner, call
`ListenAndServeTLS`; on a returned error, `log.Fatal` prints one
diagnostic line and exits with code 1. -/
def mainStartup (bindOk certOk : Bool) : StartupResult :=
  let (events, err) := listenAndServeTLS bindOk certOk
  match err with
  | some e =>
      { lines := [serverRunningLine, "⚠️ Could not start the server:" ++ e],
        events := events, exitCode := some 1 }
  | none =>
      { lines := [serverRunningLine], events := events, exitCode := none }

/-! ## Helper lemmas shared by the claim theorems -/

/-- The registrations `main` performs succeed and produce `theMux`. -/
theorem programMuxE_eq_ok : programMuxE = Except.ok theMux := rfl

theorem responseBody_log_write (ls : List String) (s : String) :
    responseBody (ls.map Effect.logLine ++ [Effect.writeBody s]) = s := by
  unfold responseBody
  rw [List.foldl_append]
  have hlog : ∀ acc : String,
      List.foldl (fun acc e => match e with
        | Effect.writeBody s => acc ++ s
        | Effect.logLine _ => acc) acc (ls.map Effect.logLine) = acc := by
    induction ls with
    | nil => intro acc; rfl
    | cons a as ih => intro acc; simpa using ih acc
  rw [hlog]
  show "" ++ s = s
  simp

theorem logLines_log_write (ls : List String) (s : String) :
    logLines (ls.map Effect.logLine ++ [Effect.writeBody s]) = ls := by
  unfold logLines
  rw [List.filterMap_append, List.filterMap_map]
  suffices h : List.filterMap
      ((fun e => match e with
        | Effect.logLine s => some s
        | Effect.writeBody _ => none) ∘ Effect.logLine) ls = ls by
    simpa using h
  induction ls with
  | nil => rfl
  | cons a as ih => simpa using ih

theorem dispatch_orders (m p : String) (t : Option Nat) :
    serveMuxDispatch theMux { method := m, path := "/orders", proto := p, tls := t } =
      { status := 200,
        effects := ordersHandler { method := m, path := "/orders", proto := p, tls := t },
        handlersInvoked := 1 } := rfl

theorem dispatch_users (m p : String) (t : Option Nat) :
    serveMuxDispatch theMux { method := m, path := "/users", proto := p, tls := t } =
      { status := 200,
        effects := usersHandler { method := m, path := "/users", proto := p, tls := t },
        handlersInvoked := 1 } := rfl

theorem supported_versions_at_min :
    serverSupportedVersions configuredMinVersion = [versionTLS13, versionTLS12] := rfl

/-! ## Claim theorems -/

/-- C10: `getTLSVersionName` is total: the four enumerated TLS version
constants map to "TLS 1.0", "TLS 1.1", "TLS 1.2", "TLS 1.3", every other
value maps to the fallback "Unknown TLS version!", and the range is
exactly these five strings. -/
theorem getTLSVersionName_total_enumeration :
    getTLSVersionName versionTLS10 = "TLS 1.0" ∧
    getTLSVersionName versionTLS11 = "TLS 1.1" ∧
    getTLSVersionName versionTLS12 = "TLS 1.2" ∧
    getTLSVersionName versionTLS13 = "TLS 1.3" ∧
    (∀ v : Nat, v ≠ versionTLS10 → v ≠ versionTLS11 → v ≠ versionTLS12 →
      v ≠ versionTLS13 → getTLSVersionName v = "Unknown TLS version!") ∧
    (∀ v : Nat, getTLSVersionName v ∈
      ["TLS 1.0", "TLS 1.1", "TLS 1.2", "TLS 1.3", "Unknown TLS version!"]) := by
  refine ⟨rfl, rfl, rfl, rfl, ?_, ?_⟩
  · intro v h10 h11 h12 h13
    simp [getTLSVersionName, h10, h11, h12, h13]
  · intro v
    unfold getTLSVersionName
    split_ifs <;> simp

/-- C10 witness: the fallback branch evaluated at the concrete
out-of-enumeration value 0. -/
theorem getTLSVersionName_total_enumeration_witness :
    getTLSVersionName 0 = "Unknown TLS version!" :=
  getTLSVersionName_total_enumeration.2.2.2.2.1 0 (by decide) (by decide)
    (by decide) (by decide)

/-- C2: a request whose path is exactly `/orders` gets status 200 and
body "Handling incoming orders..✅"; a request whose path is exactly
`/users` gets status 200 and body "Handling users..✅"; for every method
(and protocol and TLS state). -/
theorem registered_paths_fixed_bodies (method proto : String) (tls : Option Nat) :
    (serveMuxDispatch theMux
      { method := method, path := "/orders", proto := proto, tls := tls }).status = 200 ∧
    responseBody (serveMuxDispatch theMux
      { method := method, path := "/orders", proto := proto, tls := tls }).effects =
      "Handling incoming orders..✅" ∧
    (serveMuxDispatch theMux
      { method := method, path := "/users", proto := proto, tls := tls }).status = 200 ∧
    responseBody (serveMuxDispatch theMux
      { method := method, path := "/users", proto := proto, tls := tls }).effects =
      "Handling users..✅" := by
  rw [dispatch_orders, dispatch_users]
  refine ⟨rfl, ?_, rfl, ?_⟩
  · rw [show ordersHandler { method := method, path := "/orders", proto := proto, tls := tls } =
      (logRequestDetails { method := method, path := "/orders", proto := proto, tls := tls }).map
        Effect.logLine ++ [Effect.writeBody "Handling incoming orders..✅"] from rfl]
    exact responseBody_log_write _ _
  · rw [show usersHandler { method := method, path := "/users", proto := proto, tls := tls } =
      (logRequestDetails { method := method, path := "/users", proto := proto, tls := tls }).map
        Effect.logLine ++ [Effect.writeBody "Handling users..✅"] from rfl]
    exact responseBody_log_write _ _

/-- C3 counterexample: registering `/orders` a second time (with a
different handler) is NOT a silent replacement: `ServeMux.Handle` reports
`http: multiple registrations for /orders` (a panic in Go), refuting the
claim that the second registration wins. -/
theorem duplicate_registration_counterexample :
    handleFunc [] "/orders" ordersHandler =
      Except.ok [("/orders", ordersHandler)] ∧
    handleFunc [("/orders", ordersHandler)] "/orders" usersHandler =
      Except.error "http: multiple registrations for /orders" :=
  ⟨rfl, rfl⟩

/-- C3 amended: registering a pattern that is already registered is an
error (a Go panic, `http: multiple registrations for <path>`), not a
silent last-writer-wins replacement. -/
theorem duplicate_registration_errors (mux : Mux) (pattern : String)
    (g : Request → List Effect)
    (hne : pattern ≠ "")
    (hreg : List.any mux (fun e => e.1 = pattern) = true) :
    handleFunc mux pattern g =
      Except.error ("http: multiple registrations for " ++ pattern) := by
  simp [handleFunc, hne, hreg]

/-- C3 amended witness: the concrete double registration of `/orders`. -/
theorem duplicate_registration_errors_witness :
    handleFunc [("/orders", ordersHandler)] "/orders" usersHandler =
      Except.error ("http: multiple registrations for " ++ "/orders") :=
  duplicate_registration_errors [("/orders", ordersHandler)] "/orders"
    usersHandler (by decide) (by decide)

/-- C1: a connection from a client offering only TLS versions below the
configured minimum (TLS 1.2) fails the handshake: negotiation returns no
version, the connection never reaches the mux, and zero registered
handlers run. -/
theorem below_min_handshake_rejected (clientVersions : List Nat)
    (method path proto : String)
    (h : ∀ v ∈ clientVersions, v < versionTLS12) :
    negotiateVersion configuredMinVersion clientVersions = none ∧
    processConnection configuredMinVersion clientVersions method path proto
      = none ∧
    connectionHandlersInvoked
      (processConnection configuredMinVersion clientVersions method path proto)
      = 0 := by
  have h13 : versionTLS13 ∉ clientVersions := fun hmem =>
    absurd (h _ hmem) (by simp [versionTLS12, versionTLS13])
  have h12 : versionTLS12 ∉ clientVersions := fun hmem =>
    absurd (h _ hmem) (by simp [versionTLS12])
  have hneg : negotiateVersion configuredMinVersion clientVersions = none := by
    unfold negotiateVersion
    rw [supported_versions_at_min]
    simp [List.find?, h13, h12]
  refine ⟨hneg, ?_, ?_⟩
  · unfold processConnection
    rw [hneg]
  · unfold connectionHandlersInvoked processConnection
    rw [hneg]

/-- C1 witness: a client offering only TLS 1.0 and TLS 1.1 is rejected
and no handler runs. -/
theorem below_min_handshake_rejected_witness :
    negotiateVersion configuredMinVersion [versionTLS10, versionTLS11] = none ∧
    processConnection configuredMinVersion [versionTLS10, versionTLS11]
      "GET" "/orders" "HTTP/2.0" = none ∧
    connectionHandlersInvoked
      (processConnection configuredMinVersion [versionTLS10, versionTLS11]
        "GET" "/orders" "HTTP/2.0") = 0 :=
  below_min_handshake_rejected [versionTLS10, versionTLS11] "GET" "/orders"
    "HTTP/2.0" (by decide)

/-- C6: when the handshake succeeds under the configured minimum, the
negotiated version is TLS 1.2 or TLS 1.3, its name is "TLS 1.2" resp.
"TLS 1.3", and exactly that name appears in the request's log line. -/
theorem negotiated_version_logged (clientVersions : List Nat) (v : Nat)
    (method proto : String)
    (h : negotiateVersion configuredMinVersion clientVersions = some v) :
    ((v = versionTLS12 ∧ getTLSVersionName v = "TLS 1.2") ∨
     (v = versionTLS13 ∧ getTLSVersionName v = "TLS 1.3")) ∧
    ("☑️ Received request with TLS version: " ++ getTLSVersionName v) ∈
      logLines (serveMuxDispatch theMux
        { method := method, path := "/orders", proto := proto,
          tls := some v }).effects := by
  have hv : v ∈ serverSupportedVersions configuredMinVersion :=
    List.mem_of_find?_eq_some h
  rw [supported_versions_at_min] at hv
  have hv' : v = versionTLS13 ∨ v = versionTLS12 := by simpa using hv
  constructor
  · rcases hv' with h1 | h1 <;> subst h1
    · exact Or.inr ⟨rfl, rfl⟩
    · exact Or.inl ⟨rfl, rfl⟩
  · have heff : (serveMuxDispatch theMux
        { method := method, path := "/orders", proto := proto,
          tls := some v }).effects =
        (logRequestDetails
          { method := method, path := "/orders", proto := proto,
            tls := some v }).map Effect.logLine ++
          [Effect.writeBody "Handling incoming orders..✅"] := rfl
    rw [heff, logLines_log_write]
    simp [logRequestDetails]

/-- C6 witness: a client offering exactly TLS 1.3 negotiates TLS 1.3 and
the log line carries "TLS 1.3". -/
theorem negotiated_version_logged_witness :
    ((versionTLS13 = versionTLS12 ∧
        getTLSVersionName versionTLS13 = "TLS 1.2") ∨
     (versionTLS13 = versionTLS13 ∧
        getTLSVersionName versionTLS13 = "TLS 1.3")) ∧
    ("☑️ Received request with TLS version: " ++
        getTLSVersionName versionTLS13) ∈
      logLines (serveMuxDispatch theMux
        { method := "GET", path := "/orders", proto := "HTTP/2.0",
          tls := some versionTLS13 }).effects :=
  negotiated_version_logged [versionTLS13] versionTLS13 "GET" "HTTP/2.0"
    (by decide)

/-- C5 counterexample: an accepted request to the unregistered path `/`
(over TLS 1.3, HTTP/2) triggers zero logger invocations — the logger is
called inside the registered handlers, not once per accepted request. -/
theorem logger_per_request_counterexample :
    logLines (serveMuxDispatch theMux
      { method := "GET", path := "/", proto := "HTTP/2.0",
        tls := some versionTLS13 }).effects = [] ∧
    (serveMuxDispatch theMux
      { method := "GET", path := "/", proto := "HTTP/2.0",
        tls := some versionTLS13 }).handlersInvoked = 0 :=
  ⟨rfl, rfl⟩

/-- C5 amended: for every request dispatched to a registered handler the
logger runs exactly once, its lines preceding the single body write; its
first line reports the HTTP protocol version, and an unencrypted
connection gets the explicit no-TLS notice. -/
theorem logger_once_before_handler (r : Request)
    (h : r.path = "/orders" ∨ r.path = "/users") :
    (∃ body : String,
      (serveMuxDispatch theMux r).effects =
        (logRequestDetails r).map Effect.logLine ++
          [Effect.writeBody body]) ∧
    (serveMuxDispatch theMux r).handlersInvoked = 1 ∧
    (logRequestDetails r).head? =
      some ("☑️ Received request with HTTP version: " ++ r.proto) ∧
    (r.tls = none → logRequestDetails r =
      ["☑️ Received request with HTTP version: " ++ r.proto,
       "☑️ Received request without TLS"]) := by
  obtain ⟨m, p, pr, t⟩ := r
  dsimp at h ⊢
  refine ⟨?_, ?_, rfl, ?_⟩
  · rcases h with h | h <;> subst h
    · exact ⟨"Handling incoming orders..✅", rfl⟩
    · exact ⟨"Handling users..✅", rfl⟩
  · rcases h with h | h <;> subst h
    · rfl
    · rfl
  · intro ht
    subst ht
    rfl

/-- C5 amended witness: an unencrypted HTTP/1.1 request to `/users`. -/
theorem logger_once_before_handler_witness :
    (∃ body : String,
      (serveMuxDispatch theMux
        { method := "GET", path := "/users", proto := "HTTP/1.1",
          tls := none }).effects =
        (logRequestDetails
          { method := "GET", path := "/users", proto := "HTTP/1.1",
            tls := none }).map Effect.logLine ++
          [Effect.writeBody body]) ∧
    (serveMuxDispatch theMux
      { method := "GET", path := "/users", proto := "HTTP/1.1",
        tls := none }).handlersInvoked = 1 ∧
    (logRequestDetails
      { method := "GET", path := "/users", proto := "HTTP/1.1",
        tls := none }).head? =
      some ("☑️ Received request with HTTP version: " ++ "HTTP/1.1") ∧
    ((Option.none : Option Nat) = none → logRequestDetails
      { method := "GET", path := "/users", proto := "HTTP/1.1",
        tls := none } =
      ["☑️ Received request with HTTP version: " ++ "HTTP/1.1",
       "☑️ Received request without TLS"]) :=
  logger_once_before_handler
    { method := "GET", path := "/users", proto := "HTTP/1.1", tls := none }
    (Or.inr rfl)

/-- C7: a request for a path that is neither `/orders` nor `/users` gets
the stock 404 response and runs no registered handler. -/
theorem unregistered_path_404 (r : Request)
    (h1 : r.path ≠ "/orders") (h2 : r.path ≠ "/users") :
    serveMuxDispatch theMux r =
      { status := 404,
        effects := [Effect.writeBody "404 page not found\n"],
        handlersInvoked := 0 } ∧
    logLines (serveMuxDispatch theMux r).effects = [] := by
  have hfind : List.find? (fun e => e.1 = r.path) theMux = none := by
    rw [List.find?_eq_none]
    intro x hx
    simp only [theMux, List.mem_cons, List.not_mem_nil, or_false] at hx
    rcases hx with hx | hx <;> subst hx <;>
      simp only [decide_eq_true_eq]
    · exact Ne.symm h2
    · exact Ne.symm h1
  constructor
  · unfold serveMuxDispatch
    rw [hfind]
  · unfold serveMuxDispatch
    rw [hfind]
    rfl

/-- C7 witness: the concrete unregistered path `/nope`. -/
theorem unregistered_path_404_witness :
    serveMuxDispatch theMux
      { method := "GET", path := "/nope", proto := "HTTP/1.1", tls := none } =
      { status := 404,
        effects := [Effect.writeBody "404 page not found\n"],
        handlersInvoked := 0 } ∧
    logLines (serveMuxDispatch theMux
      { method := "GET", path := "/nope", proto := "HTTP/1.1",
        tls := none }).effects = [] :=
  unregistered_path_404
    { method := "GET", path := "/nope", proto := "HTTP/1.1", tls := none }
    (by decide) (by decide)

/-- C4 counterexample: with the certificate file missing the process
does exit nonzero, but `ListenAndServeTLS` has already opened the
listening socket — `net.Listen` runs before the certificate load —
refuting "without ever opening a listening socket". -/
theorem cert_failure_socket_counterexample :
    (mainStartup true false).exitCode = some 1 ∧
    StartupEvent.listenSocketOpened ∈ (mainStartup true false).events := by
  refine ⟨rfl, ?_⟩
  show StartupEvent.listenSocketOpened ∈
    [StartupEvent.listenSocketOpened, StartupEvent.listenSocketClosed]
  simp

/-- C4 amended: with the certificate or key file missing or unreadable
the process exits with code 1; the listening socket, opened before the
certificate load, is closed on the failure path and the accept loop is
never entered, so no connection is ever served. -/
theorem cert_failure_fail_fast :
    (mainStartup true false).exitCode = some 1 ∧
    (mainStartup true false).events =
      [StartupEvent.listenSocketOpened, StartupEvent.listenSocketClosed] ∧
    StartupEvent.serveLoopEntered ∉ (mainStartup true false).events := by
  refine ⟨rfl, rfl, ?_⟩
  show StartupEvent.serveLoopEntered ∉
    [StartupEvent.listenSocketOpened, StartupEvent.listenSocketClosed]
  simp

/-- C8 counterexample: when the bind fails the operator sees TWO lines —
the "server running" banner, printed unconditionally before the listen
attempt, then the diagnostic — refuting both "a single diagnostic line"
and "the listening line is emitted only on successful startup". -/
theorem startup_banner_counterexample :
    (mainStartup false true).lines =
      [serverRunningLine,
       "⚠️ Could not start the server:" ++ "bind error"] ∧
    (mainStartup false true).exitCode = some 1 ∧
    serverRunningLine ∈ (mainStartup false true).lines := by
  refine ⟨rfl, rfl, ?_⟩
  show serverRunningLine ∈
    [serverRunningLine, "⚠️ Could not start the server:" ++ "bind error"]
  simp

/-- C8 amended: the banner line is printed unconditionally before the
listen attempt; on any startup failure the operator sees exactly the
banner followed by one diagnostic line and the process exits with code 1;
on success exactly the banner is printed, before the accept loop (whose
request dispatch produces the per-connection lines) is entered. -/
theorem startup_output_shape (bindOk certOk : Bool) :
    (mainStartup bindOk certOk).lines.head? = some serverRunningLine ∧
    ((mainStartup bindOk certOk).exitCode = some 1 →
      ∃ d : String,
        (mainStartup bindOk certOk).lines = [serverRunningLine, d]) ∧
    ((mainStartup bindOk certOk).exitCode = none →
      (mainStartup bindOk certOk).lines = [serverRunningLine] ∧
      (mainStartup bindOk certOk).events =
        [StartupEvent.listenSocketOpened, StartupEvent.serveLoopEntered]) := by
  cases bindOk with
  | false =>
    cases certOk with
    | false =>
      exact ⟨rfl, fun _ => ⟨_, rfl⟩, fun hx => Option.noConfusion hx⟩
    | true =>
      exact ⟨rfl, fun _ => ⟨_, rfl⟩, fun hx => Option.noConfusion hx⟩
  | true =>
    cases certOk with
    | false =>
      exact ⟨rfl, fun _ => ⟨_, rfl⟩, fun hx => Option.noConfusion hx⟩
    | true =>
      exact ⟨rfl, fun hx => Option.noConfusion hx, fun _ => ⟨rfl, rfl⟩⟩

/-- C8 amended witness: the failed-bind startup, where the exit code is
1 and the output is the banner plus one diagnostic line. -/
theorem startup_output_shape_witness :
    (mainStartup false true).lines.head? = some serverRunningLine ∧
    (∃ d : String, (mainStartup false true).lines = [serverRunningLine, d]) :=
  ⟨(startup_output_shape false true).1,
   (startup_output_shape false true).2.1 rfl⟩

/-- C9: handlers are stateless and deterministic: serving a request
sequence is pointwise dispatch, so the n responses to n copies of one
request after arbitrary prior traffic are n copies of a single fixed
response, and every `/orders` request — whatever its method, protocol or
TLS state, and whatever came before it — yields the same body. -/
theorem handlers_deterministic_stateless (prior : List Request)
    (r : Request) (n : Nat) :
    (serveSequence (prior ++ List.replicate n r)).drop prior.length =
      List.replicate n (serveMuxDispatch theMux r) ∧
    ∀ (method proto : String) (tls : Option Nat),
      responseBody (serveMuxDispatch theMux
        { method := method, path := "/orders", proto := proto,
          tls := tls }).effects = "Handling incoming orders..✅" := by
  constructor
  · unfold serveSequence
    rw [List.map_append, List.map_replicate,
      List.drop_left' (by rw [List.length_map])]
  · intro method proto tls
    have heff : (serveMuxDispatch theMux
        { method := method, path := "/orders", proto := proto,
          tls := tls }).effects =
        (logRequestDetails
          { method := method, path := "/orders", proto := proto,
            tls := tls }).map Effect.logLine ++
          [Effect.writeBody "Handling incoming orders..✅"] := rfl
    rw [heff]
    exact responseBody_log_write _ _

end GoRest
